import Mathlib

/-!
# The book handler of `pkg/delivery/book_handler.go`

A shallow embedding of the five HTTP handlers of `BookHandler` (`Create`,
`GetAll`, `GetByID`, `Update`, `Delete`).  A handler is a function of the
request context and of the state of the business layer; it yields the response
written with `c.JSON` / `c.NoContent`, the sequence of calls it made on its
collaborators (`c.Bind` and the five operations of `BookUsecase`), and the state
the business layer is left in.

Machine integers: Go's `int` and `uint` are taken at 64 bits.  An `int` is an
`Int` in `[-2^63, 2^63)`, a `uint` is a `Nat`, and the conversion `uint(id)` is
reduction modulo `2^64`.
-/

namespace Strconv

/-- The two failure kinds of a `*strconv.NumError`. -/
inductive NumError where
  | ErrSyntax
  | ErrRange
  deriving DecidableEq

/-- Width of Go's `int` and `uint` (`strconv.IntSize`) on a 64-bit platform. -/
def IntSize : Nat := 64

/-- The digit loop of `strconv.ParseUint` in base 10: every byte has to be one
of `0` .. `9` (anything else is a syntax error) and the accumulated value has to
stay below `2^64` (otherwise a range error).  `n` is the value read so far. -/
def parseUintLoop : List Char → Nat → Except NumError Nat
  | [], n => .ok n
  | c :: cs, n =>
    if c.isDigit then
      let n1 := n * 10 + (c.toNat - 48)
      if 2 ^ IntSize ≤ n1 then .error .ErrRange else parseUintLoop cs n1
    else .error .ErrSyntax

/-- Go's `strconv.ParseUint(s, 10, 0)`: the empty string is a syntax error. -/
def ParseUint (s : List Char) : Except NumError Nat :=
  match s with
  | [] => .error .ErrSyntax
  | _ :: _ => parseUintLoop s 0

/-- The sign and range handling of `strconv.ParseInt(s, 10, 0)` once the sign
has been stripped: `cutoff = 2^63`; a non-negative value has to be below the
cutoff and a negative one at most the cutoff in magnitude. -/
def parseSigned (neg : Bool) (digits : List Char) : Except NumError Int :=
  match ParseUint digits with
  | .error e => .error e
  | .ok un =>
    let cutoff : Nat := 2 ^ (IntSize - 1)
    if !neg && cutoff ≤ un then .error .ErrRange
    else if neg && cutoff < un then .error .ErrRange
    else .ok (if neg then -(un : Int) else (un : Int))

/-- Go's `strconv.Atoi` (the standard library function the handlers call on the
path parameter), on a 64-bit platform: an optional single `+` or `-`, then one
or more decimal digits, the value within `[-2^63, 2^63)`.  The fast path that
`Atoi` takes for short strings computes the same result as `ParseInt`. -/
def Atoi (s : String) : Except NumError Int :=
  match s.toList with
  | [] => .error .ErrSyntax
  | '+' :: rest => parseSigned false rest
  | '-' :: rest => parseSigned true rest
  | c :: rest => parseSigned false (c :: rest)

end Strconv

namespace Http

/-- Go's `http.StatusOK`. -/
def StatusOK : Nat := 200
/-- Go's `http.StatusCreated`. -/
def StatusCreated : Nat := 201
/-- Go's `http.StatusNoContent`. -/
def StatusNoContent : Nat := 204
/-- Go's `http.StatusBadRequest`. -/
def StatusBadRequest : Nat := 400
/-- Go's `http.StatusNotFound`. -/
def StatusNotFound : Nat := 404
/-- Go's `http.StatusInternalServerError`. -/
def StatusInternalServerError : Nat := 500

end Http

namespace Domains

/-- Modelled from the spec: the struct `domains.Book` is declared outside the
handler file.  A book is its numeric `ID` (a Go `uint`, the only field the
handlers touch) together with the client-supplied fields, which the handlers
treat as an opaque payload of type `P`. -/
structure Book (P : Type) where
  ID : Nat
  payload : P
  deriving DecidableEq

/-- Modelled from the spec: the interface `domains.BookUsecase` is declared
outside the handler file; its five operations are read off the call sites.
The business layer owns a state `σ`; every operation may change it and may
return a Go `error` (`none` is `nil`).  `Create` and `Update` receive `&book`,
so they also hand back the book as they leave it behind the pointer.
`GetByID` returns a `*Book` (`none` is `nil`) next to its error. -/
structure BookUsecase (P ε σ : Type) where
  Create : Book P → σ → (Option ε × Book P) × σ
  GetAll : σ → (List (Book P) × Option ε) × σ
  GetByID : Nat → σ → (Option (Book P) × Option ε) × σ
  Update : Book P → σ → (Option ε × Book P) × σ
  Delete : Nat → σ → Option ε × σ

end Domains

namespace Echo

open Domains

/-- The part of an `echo.Context` the handlers read: the path parameters
(`c.Param`) and the outcome of `c.Bind(&book)` on a fresh zero-valued book,
which is either a bind error or the decoded book. -/
structure Context (P ε : Type) where
  Param : String → String
  Bind : Except ε (Book P)

/-- The value a handler hands to `c.JSON`, or nothing for `c.NoContent`. -/
inductive Body (P ε : Type) where
  /-- A `map[string]string` literal. -/
  | map (m : List (String × String))
  /-- A Go `error` value, passed as it was received. -/
  | err (e : ε)
  /-- A single book. -/
  | book (b : Book P)
  /-- A slice of books. -/
  | books (bs : List (Book P))
  /-- No body at all (`c.NoContent`). -/
  | empty
  deriving DecidableEq

/-- The response a handler writes: status code and body. -/
structure Response (P ε : Type) where
  status : Nat
  body : Body P ε
  deriving DecidableEq

end Echo

namespace Delivery

open Domains Echo Strconv Http

/-- The conversion `uint(id)` of an `int` on a 64-bit platform. -/
def toUint (id : Int) : Nat := (id % 2 ^ IntSize).toNat

/-- A call a handler makes on one of its collaborators, with its argument. -/
inductive Call (P : Type) where
  | Bind
  | Create (book : Book P)
  | GetAll
  | GetByID (id : Nat)
  | Update (book : Book P)
  | Delete (id : Nat)
  deriving DecidableEq

/-- What running a handler amounts to: the response written, the calls made
in order, and the state of the business layer afterwards. -/
structure Outcome (P ε σ : Type) where
  response : Response P ε
  calls : List (Call P)
  state : σ

/-- The struct `BookHandler`. -/
structure BookHandler (P ε σ : Type) where
  BookUsecase : Domains.BookUsecase P ε σ

variable {P ε σ : Type}

/-- The handler `BookHandler.Create` (`POST /books`). -/
def BookHandler.Create (h : BookHandler P ε σ) (c : Context P ε) (s : σ) : Outcome P ε σ :=
  match c.Bind with
  | .error _ =>
    ⟨⟨StatusBadRequest, .map [("error", "Invalid input")]⟩, [.Bind], s⟩
  | .ok book =>
    match h.BookUsecase.Create book s with
    | ((some err, _), s1) =>
      ⟨⟨StatusInternalServerError, .err err⟩, [.Bind, .Create book], s1⟩
    | ((none, book1), s1) =>
      ⟨⟨StatusCreated, .book book1⟩, [.Bind, .Create book], s1⟩

/-- The handler `BookHandler.GetAll` (`GET /books`). -/
def BookHandler.GetAll (h : BookHandler P ε σ) (_c : Context P ε) (s : σ) : Outcome P ε σ :=
  match h.BookUsecase.GetAll s with
  | ((_, some err), s1) => ⟨⟨StatusInternalServerError, .err err⟩, [.GetAll], s1⟩
  | ((books, none), s1) => ⟨⟨StatusOK, .books books⟩, [.GetAll], s1⟩

/-- The handler `BookHandler.GetByID` (`GET /books/:id`). -/
def BookHandler.GetByID (h : BookHandler P ε σ) (c : Context P ε) (s : σ) : Outcome P ε σ :=
  let idStr := c.Param "id"
  match Atoi idStr with
  | .error _ =>
    ⟨⟨StatusBadRequest, .map [("error", "Invalid ID")]⟩, [], s⟩
  | .ok id =>
    match h.BookUsecase.GetByID (toUint id) s with
    | ((_, some err), s1) =>
      ⟨⟨StatusInternalServerError, .err err⟩, [.GetByID (toUint id)], s1⟩
    | ((none, none), s1) =>
      ⟨⟨StatusNotFound, .map [("error", "Book not found")]⟩, [.GetByID (toUint id)], s1⟩
    | ((some book, none), s1) =>
      ⟨⟨StatusOK, .book book⟩, [.GetByID (toUint id)], s1⟩

/-- The handler `BookHandler.Update` (`PUT /books/:id`). -/
def BookHandler.Update (h : BookHandler P ε σ) (c : Context P ε) (s : σ) : Outcome P ε σ :=
  let idStr := c.Param "id"
  match Atoi idStr with
  | .error _ =>
    ⟨⟨StatusBadRequest, .map [("error", "Invalid ID")]⟩, [], s⟩
  | .ok id =>
    match c.Bind with
    | .error err => ⟨⟨StatusBadRequest, .err err⟩, [.Bind], s⟩
    | .ok book0 =>
      let book : Book P := { book0 with ID := toUint id }
      match h.BookUsecase.Update book s with
      | ((some err, _), s1) =>
        ⟨⟨StatusInternalServerError, .err err⟩, [.Bind, .Update book], s1⟩
      | ((none, book1), s1) =>
        ⟨⟨StatusOK, .book book1⟩, [.Bind, .Update book], s1⟩

/-- The handler `BookHandler.Delete` (`DELETE /books/:id`). -/
def BookHandler.Delete (h : BookHandler P ε σ) (c : Context P ε) (s : σ) : Outcome P ε σ :=
  let idStr := c.Param "id"
  match Atoi idStr with
  | .error _ =>
    ⟨⟨StatusBadRequest, .map [("error", "Invalid ID")]⟩, [], s⟩
  | .ok id =>
    match h.BookUsecase.Delete (toUint id) s with
    | (some err, s1) => ⟨⟨StatusInternalServerError, .err err⟩, [.Delete (toUint id)], s1⟩
    | (none, s1) => ⟨⟨StatusNoContent, .empty⟩, [.Delete (toUint id)], s1⟩

/-! ### Business layers and requests used to evaluate the handlers -/

/-- Modelled from the spec: the business layer is implemented outside the
handler file.  This one is a stable in-memory store over books with a textual
payload: `Create` assigns the next id and stores the book, `GetByID` returns
the stored book with that id or nothing, `Update` replaces the stored books
with the given id, `Delete` removes them; no operation fails. -/
def memUsecase : Domains.BookUsecase String String (List (Book String)) where
  Create := fun b s =>
    let b1 : Book String := { b with ID := s.length + 1 }
    ((none, b1), b1 :: s)
  GetAll := fun s => ((s, none), s)
  GetByID := fun id s => ((s.find? (fun b => b.ID == id), none), s)
  Update := fun b s => ((none, b), s.map (fun x => if x.ID == b.ID then b else x))
  Delete := fun id s => (none, s.filter (fun b => b.ID != id))

/-- Modelled from the spec: the business layer is implemented outside the
handler file.  This one is `memUsecase` with an `Update` that saves rather than
replaces: a book whose id is zero is stored as a new book under the next id,
written back through the pointer it was given. -/
def savingUsecase : Domains.BookUsecase String String (List (Book String)) :=
  { memUsecase with
    Update := fun b s =>
      if b.ID = 0 then
        let b1 : Book String := { b with ID := s.length + 1 }
        ((none, b1), b1 :: s)
      else memUsecase.Update b s }

/-- Modelled from the spec: the business layer is implemented outside the
handler file.  This one fails every operation with the same error, leaving its
state alone; `GetByID` returns a book next to the error. -/
def failingUsecase : Domains.BookUsecase String String (List (Book String)) where
  Create := fun b s => ((some "db down", b), s)
  GetAll := fun s => (([], some "db down"), s)
  GetByID := fun id s => ((some ⟨id, "stale"⟩, some "db down"), s)
  Update := fun b s => ((some "db down", b), s)
  Delete := fun _ s => (some "db down", s)

/-- The handler constructed over `memUsecase`. -/
def memHandler : BookHandler String String (List (Book String)) := ⟨memUsecase⟩

/-- The handler constructed over `savingUsecase`. -/
def savingHandler : BookHandler String String (List (Book String)) := ⟨savingUsecase⟩

/-- The handler constructed over `failingUsecase`. -/
def failingHandler : BookHandler String String (List (Book String)) := ⟨failingUsecase⟩

/-- Modelled from the spec: the business layer is implemented outside the
handler file.  This one is `memUsecase` with a `Create` that numbers the books
in sequence: a book arriving with a non-zero id is stored under that id, any
other under one more than the largest id stored. -/
def sequenceUsecase : Domains.BookUsecase String String (List (Book String)) :=
  { memUsecase with
    Create := fun b s =>
      let next := s.foldl (fun m x => max m x.ID) 0 + 1
      let b1 : Book String := { b with ID := if b.ID = 0 then next else b.ID }
      ((none, b1), b1 :: s) }

/-- The handler constructed over `sequenceUsecase`. -/
def sequenceHandler : BookHandler String String (List (Book String)) := ⟨sequenceUsecase⟩

/-- A request whose path parameter `id` is `id` and on which `c.Bind` has the
outcome `bind`. -/
def request (id : String) (bind : Except String (Book String)) : Context String String where
  Param := fun name => if name = "id" then id else ""
  Bind := bind

end Delivery

/-! ## Properties -/

namespace Strconv

/-- A value `parseSigned` returns is a 64-bit `int`. -/
theorem parseSigned_range (neg : Bool) (ds : List Char) (n : Int)
    (h : parseSigned neg ds = .ok n) : -2 ^ 63 ≤ n ∧ n < 2 ^ 63 := by
  unfold parseSigned at h
  cases hp : ParseUint ds with
  | error e => simp [hp] at h
  | ok un =>
    simp only [hp, IntSize] at h
    cases neg with
    | false =>
      simp only [Bool.not_false, Bool.true_and, Bool.false_and, Bool.false_eq_true,
        if_false, decide_eq_true_eq] at h
      split at h
      · simp at h
      · rename_i hlt
        simp only [Except.ok.injEq] at h
        subst h
        norm_num at hlt
        omega
    | true =>
      simp only [Bool.not_true, Bool.true_and, Bool.false_and, Bool.false_eq_true,
        if_false, if_true, decide_eq_true_eq] at h
      split at h
      · simp at h
      · rename_i hlt
        simp only [Except.ok.injEq] at h
        subst h
        norm_num at hlt
        omega

/-- A value `Atoi` returns is a 64-bit `int`. -/
theorem Atoi_range (s : String) (n : Int) (h : Atoi s = .ok n) :
    -2 ^ 63 ≤ n ∧ n < 2 ^ 63 := by
  unfold Atoi at h
  split at h
  · simp at h
  · exact parseSigned_range _ _ _ h
  · exact parseSigned_range _ _ _ h
  · exact parseSigned_range _ _ _ h

/-- The character of a decimal digit is a digit, and reads back as its value. -/
theorem digitChar_isDigit (k : Nat) (hk : k < 10) :
    (Nat.digitChar k).isDigit = true ∧ (Nat.digitChar k).toNat - 48 = k := by
  interval_cases k <;> exact ⟨rfl, rfl⟩

/-- Reading the decimal digits of `n` written in front of `ds` amounts to
reading `ds` with `n` as the value read so far. -/
theorem parseUintLoop_toDigitsCore (f : Nat) :
    ∀ (n : Nat) (ds : List Char), n < f → n < 2 ^ 64 →
      parseUintLoop (Nat.toDigitsCore 10 f n ds) 0 = parseUintLoop ds n := by
  induction f with
  | zero => intro n ds h; omega
  | succ f ih =>
    intro n ds hf hn
    have hd := digitChar_isDigit (n % 10) (Nat.mod_lt n (by decide))
    have hstep : parseUintLoop (Nat.digitChar (n % 10) :: ds) (n / 10) = parseUintLoop ds n := by
      have hval : n / 10 * 10 + n % 10 = n := by omega
      have hsmall : ¬ 2 ^ 64 ≤ n := by omega
      simp only [parseUintLoop, hd.1, hd.2, IntSize, if_true, hval, hsmall, if_false]
    simp only [Nat.toDigitsCore]
    split
    · rename_i h0
      rw [← hstep, h0]
    · rename_i h0
      rw [ih (n / 10) _ (by omega) (by omega), hstep]

/-- The decimal form of a number has at least one digit. -/
theorem toDigitsCore_ne_nil (f n : Nat) : Nat.toDigitsCore 10 (f + 1) n [] ≠ [] := by
  intro h
  have hl := congrArg List.length h
  simp only [Nat.toDigitsCore] at hl
  split at hl
  · simp at hl
  · rw [Nat.toDigitsCore_lens_eq] at hl
    simp at hl

/-- The decimal form of a `uint` reads back as that `uint`. -/
theorem ParseUint_toDigits (n : Nat) (hn : n < 2 ^ 64) :
    ParseUint (Nat.toDigits 10 n) = .ok n := by
  have hl := parseUintLoop_toDigitsCore (n + 1) n [] (by omega) hn
  have hne := toDigitsCore_ne_nil n n
  unfold ParseUint Nat.toDigits
  split
  · rename_i heq
    exact absurd heq hne
  · rw [hl]
    rfl

/-- The decimal form of a number below `2^63` is parsed by `Atoi` as that
number. -/
theorem Atoi_toString (n : Nat) (hn : n < 2 ^ 63) : Atoi (toString n) = .ok (n : Int) := by
  have hp := ParseUint_toDigits n (by omega)
  have hs : (toString n).toList = Nat.toDigits 10 n := rfl
  have hpos : parseSigned false (Nat.toDigits 10 n) = .ok (n : Int) := by
    have hlt : n < 9223372036854775808 := by norm_num at hn; exact hn
    simp [parseSigned, hp, IntSize, hlt]
  unfold Atoi
  rw [hs]
  split
  · rename_i heq
    rw [heq] at hp
    simp [ParseUint] at hp
  · rename_i rest heq
    rw [heq] at hp
    simp [ParseUint, parseUintLoop] at hp
  · rename_i rest heq
    rw [heq] at hp
    simp [ParseUint, parseUintLoop] at hp
  · rename_i c rest _ _ heq
    rw [← heq]; exact hpos

end Strconv

namespace Delivery

open Domains Echo Strconv Http

variable {P ε σ : Type}

/-- The conversion `uint(id)` is the identity on non-negative 64-bit ints. -/
theorem toUint_of_nonneg (n : Int) (h0 : 0 ≤ n) (h1 : n < 2 ^ 63) :
    ((toUint n : Nat) : Int) = n := by
  simp only [toUint, IntSize]
  omega

/-- The conversion `uint(id)` wraps a negative 64-bit int around `2^64`. -/
theorem toUint_of_neg (n : Int) (h0 : n < 0) (h1 : -2 ^ 63 ≤ n) :
    ((toUint n : Nat) : Int) = 2 ^ 64 + n := by
  simp only [toUint, IntSize]
  omega

/-! ### C1: the book `Update` passes downstream -/

/-- C1, as stated, fails: with the path id `-1`, which `Atoi` parses as the
integer `-1`, and a body carrying id `7`, the book handed to
`BookUsecase.Update` has ID `18446744073709551615`, which is not `-1`. -/
theorem update_passed_id_differs_from_negative_path_id :
    Atoi ((request "-1" (.ok ⟨7, "T"⟩)).Param "id") = .ok (-1) ∧
    (memHandler.Update (request "-1" (.ok ⟨7, "T"⟩)) []).calls
      = [.Bind, .Update ⟨18446744073709551615, "T"⟩] ∧
    ((18446744073709551615 : Nat) : Int) ≠ -1 := by
  refine ⟨rfl, rfl, by decide⟩

/-- C1, amended: when the path id parses as `n` and the body decodes to `b`,
`Update` binds the body and then calls `BookUsecase.Update` exactly once, on the
book made of `uint(n)` and the other fields of `b`; the id of the body is not
used, and `uint(n)` is `n` itself whenever `n` is not negative. -/
theorem update_passes_converted_path_id (h : BookHandler P ε σ) (c : Context P ε) (s : σ)
    (n : Int) (b : Book P)
    (hid : Atoi (c.Param "id") = .ok n) (hb : c.Bind = .ok b) :
    (h.Update c s).calls = [.Bind, .Update ⟨toUint n, b.payload⟩] ∧
    (0 ≤ n → ((toUint n : Nat) : Int) = n) := by
  constructor
  · simp only [BookHandler.Update, hid, hb]
    rcases hu : h.BookUsecase.Update ⟨toUint n, b.payload⟩ s with ⟨⟨_ | e, b1⟩, s1⟩ <;> rfl
  · intro h0
    exact toUint_of_nonneg n h0 (Atoi_range _ _ hid).2

/-- C1, amended, at the path id `42` with a body carrying id `7`. -/
theorem update_passes_converted_path_id_witness :
    (memHandler.Update (request "42" (.ok ⟨7, "T"⟩)) []).calls
      = [.Bind, .Update ⟨toUint 42, "T"⟩] ∧
    ((toUint 42 : Nat) : Int) = 42 :=
  have w := update_passes_converted_path_id memHandler (request "42" (.ok ⟨7, "T"⟩)) [] 42
    ⟨7, "T"⟩ rfl rfl
  ⟨w.1, w.2 (by decide)⟩

/-! ### C2: a path id that does not parse -/

/-- C2: when `Atoi` rejects the path id, each of `GetByID`, `Update` and
`Delete` responds 400 with the body `{"error": "Invalid ID"}`, makes no call at
all (none on `BookUsecase` in particular) and leaves the business layer in the
state it was in. -/
theorem invalid_id_is_bad_request (h : BookHandler P ε σ) (c : Context P ε) (s : σ)
    (e : NumError) (hid : Atoi (c.Param "id") = .error e) :
    ((h.GetByID c s).response = ⟨400, .map [("error", "Invalid ID")]⟩ ∧
      (h.GetByID c s).calls = [] ∧ (h.GetByID c s).state = s) ∧
    ((h.Update c s).response = ⟨400, .map [("error", "Invalid ID")]⟩ ∧
      (h.Update c s).calls = [] ∧ (h.Update c s).state = s) ∧
    ((h.Delete c s).response = ⟨400, .map [("error", "Invalid ID")]⟩ ∧
      (h.Delete c s).calls = [] ∧ (h.Delete c s).state = s) := by
  simp [BookHandler.GetByID, BookHandler.Update, BookHandler.Delete, hid, StatusBadRequest]

/-- C2 at the path id `abc`, over a store holding one book. -/
theorem invalid_id_is_bad_request_witness :
    ((memHandler.GetByID (request "abc" (.ok ⟨7, "T"⟩)) [⟨1, "A"⟩]).response
        = ⟨400, .map [("error", "Invalid ID")]⟩ ∧
      (memHandler.GetByID (request "abc" (.ok ⟨7, "T"⟩)) [⟨1, "A"⟩]).calls = [] ∧
      (memHandler.GetByID (request "abc" (.ok ⟨7, "T"⟩)) [⟨1, "A"⟩]).state = [⟨1, "A"⟩]) ∧
    ((memHandler.Update (request "abc" (.ok ⟨7, "T"⟩)) [⟨1, "A"⟩]).response
        = ⟨400, .map [("error", "Invalid ID")]⟩ ∧
      (memHandler.Update (request "abc" (.ok ⟨7, "T"⟩)) [⟨1, "A"⟩]).calls = [] ∧
      (memHandler.Update (request "abc" (.ok ⟨7, "T"⟩)) [⟨1, "A"⟩]).state = [⟨1, "A"⟩]) ∧
    ((memHandler.Delete (request "abc" (.ok ⟨7, "T"⟩)) [⟨1, "A"⟩]).response
        = ⟨400, .map [("error", "Invalid ID")]⟩ ∧
      (memHandler.Delete (request "abc" (.ok ⟨7, "T"⟩)) [⟨1, "A"⟩]).calls = [] ∧
      (memHandler.Delete (request "abc" (.ok ⟨7, "T"⟩)) [⟨1, "A"⟩]).state = [⟨1, "A"⟩]) :=
  invalid_id_is_bad_request memHandler (request "abc" (.ok ⟨7, "T"⟩)) [⟨1, "A"⟩] .ErrSyntax rfl

/-! ### C3: the three outcomes of `GetByID` -/

/-- C3: when the path id parses as `n`, the response of `GetByID` follows the
result of `BookUsecase.GetByID` on `uint(n)`: no book and no error gives 404
with `{"error": "Book not found"}`; an error gives 500 with that error, whether
or not a book came with it; a book and no error gives 200 with that book. -/
theorem getByID_response_cases (h : BookHandler P ε σ) (c : Context P ε) (s : σ) (n : Int)
    (hid : Atoi (c.Param "id") = .ok n) :
    (∀ s1, h.BookUsecase.GetByID (toUint n) s = ((none, none), s1) →
      (h.GetByID c s).response = ⟨404, .map [("error", "Book not found")]⟩) ∧
    (∀ ob e s1, h.BookUsecase.GetByID (toUint n) s = ((ob, some e), s1) →
      (h.GetByID c s).response = ⟨500, .err e⟩) ∧
    (∀ b s1, h.BookUsecase.GetByID (toUint n) s = ((some b, none), s1) →
      (h.GetByID c s).response = ⟨200, .book b⟩) := by
  refine ⟨?_, ?_, ?_⟩
  · intro s1 hg
    simp [BookHandler.GetByID, hid, hg, StatusNotFound]
  · intro ob e s1 hg
    simp [BookHandler.GetByID, hid, hg, StatusInternalServerError]
  · intro b s1 hg
    simp [BookHandler.GetByID, hid, hg, StatusOK]

/-- C3 on concrete stores: id `2` is absent from the store (404), the failing
business layer returns a book next to its error (500), id `1` is present
(200). -/
theorem getByID_response_cases_witness :
    (memHandler.GetByID (request "2" (.error "no body")) [⟨1, "A"⟩]).response
      = ⟨404, .map [("error", "Book not found")]⟩ ∧
    (failingHandler.GetByID (request "1" (.error "no body")) [⟨1, "A"⟩]).response
      = ⟨500, .err "db down"⟩ ∧
    (memHandler.GetByID (request "1" (.error "no body")) [⟨1, "A"⟩]).response
      = ⟨200, .book ⟨1, "A"⟩⟩ :=
  ⟨(getByID_response_cases memHandler (request "2" (.error "no body")) [⟨1, "A"⟩] 2 rfl).1
      [⟨1, "A"⟩] rfl,
   (getByID_response_cases failingHandler (request "1" (.error "no body")) [⟨1, "A"⟩] 1 rfl).2.1
      (some ⟨1, "stale"⟩) "db down" [⟨1, "A"⟩] rfl,
   (getByID_response_cases memHandler (request "1" (.error "no body")) [⟨1, "A"⟩] 1 rfl).2.2
      ⟨1, "A"⟩ [⟨1, "A"⟩] rfl⟩

/-! ### C4: a successful `Delete` -/

/-- C4: when the path id parses as `n` and `BookUsecase.Delete` returns no
error on `uint(n)`, `Delete` responds 204 with an empty body, whatever state the
business layer was in and whatever state it is left in. -/
theorem delete_ok_is_no_content (h : BookHandler P ε σ) (c : Context P ε) (s s1 : σ) (n : Int)
    (hid : Atoi (c.Param "id") = .ok n)
    (hdel : h.BookUsecase.Delete (toUint n) s = (none, s1)) :
    (h.Delete c s).response = ⟨204, .empty⟩ := by
  simp [BookHandler.Delete, hid, hdel, StatusNoContent]

/-- C4 at the path id `1`, deleting the only stored book. -/
theorem delete_ok_is_no_content_witness :
    (memHandler.Delete (request "1" (.error "no body")) [⟨1, "A"⟩]).response
      = ⟨204, .empty⟩ :=
  delete_ok_is_no_content memHandler (request "1" (.error "no body")) [⟨1, "A"⟩] [] 1 rfl rfl

/-! ### C5: a failing business layer -/

/-- C5: in each of the five handlers, once the request is structurally valid
(the id parses where there is one, the body decodes where there is one) an
error returned by the operation of `BookUsecase` gives the response 500 whose
body is that very error. -/
theorem usecase_error_is_internal_server_error (h : BookHandler P ε σ) (c : Context P ε)
    (s s1 : σ) (e : ε) :
    (∀ b b1, c.Bind = .ok b → h.BookUsecase.Create b s = ((some e, b1), s1) →
      (h.Create c s).response = ⟨500, .err e⟩) ∧
    (∀ bs, h.BookUsecase.GetAll s = ((bs, some e), s1) →
      (h.GetAll c s).response = ⟨500, .err e⟩) ∧
    (∀ n ob, Atoi (c.Param "id") = .ok n →
      h.BookUsecase.GetByID (toUint n) s = ((ob, some e), s1) →
      (h.GetByID c s).response = ⟨500, .err e⟩) ∧
    (∀ n b b1, Atoi (c.Param "id") = .ok n → c.Bind = .ok b →
      h.BookUsecase.Update ⟨toUint n, b.payload⟩ s = ((some e, b1), s1) →
      (h.Update c s).response = ⟨500, .err e⟩) ∧
    (∀ n, Atoi (c.Param "id") = .ok n →
      h.BookUsecase.Delete (toUint n) s = (some e, s1) →
      (h.Delete c s).response = ⟨500, .err e⟩) := by
  refine ⟨?_, ?_, ?_, ?_, ?_⟩
  · intro b b1 hb hu
    simp [BookHandler.Create, hb, hu, StatusInternalServerError]
  · intro bs hu
    simp [BookHandler.GetAll, hu, StatusInternalServerError]
  · intro n ob hid hu
    simp [BookHandler.GetByID, hid, hu, StatusInternalServerError]
  · intro n b b1 hid hb hu
    simp [BookHandler.Update, hid, hb, hu, StatusInternalServerError]
  · intro n hid hu
    simp [BookHandler.Delete, hid, hu, StatusInternalServerError]

/-- C5 over the business layer that fails every operation with `db down`. -/
theorem usecase_error_is_internal_server_error_witness :
    (failingHandler.Create (request "3" (.ok ⟨7, "T"⟩)) []).response = ⟨500, .err "db down"⟩ ∧
    (failingHandler.GetAll (request "3" (.ok ⟨7, "T"⟩)) []).response = ⟨500, .err "db down"⟩ ∧
    (failingHandler.GetByID (request "3" (.ok ⟨7, "T"⟩)) []).response = ⟨500, .err "db down"⟩ ∧
    (failingHandler.Update (request "3" (.ok ⟨7, "T"⟩)) []).response = ⟨500, .err "db down"⟩ ∧
    (failingHandler.Delete (request "3" (.ok ⟨7, "T"⟩)) []).response = ⟨500, .err "db down"⟩ :=
  have w := usecase_error_is_internal_server_error failingHandler
    (request "3" (.ok ⟨7, "T"⟩)) [] [] "db down"
  ⟨w.1 ⟨7, "T"⟩ ⟨7, "T"⟩ rfl rfl,
   w.2.1 [] rfl,
   w.2.2.1 3 (some ⟨3, "stale"⟩) rfl rfl,
   w.2.2.2.1 3 ⟨7, "T"⟩ ⟨3, "T"⟩ rfl rfl rfl,
   w.2.2.2.2 3 rfl rfl⟩

/-! ### C6: `Create` -/

/-- C6: when the body does not decode, `Create` responds 400 with
`{"error": "Invalid input"}`, its only call is the bind (so `BookUsecase.Create`
is not invoked) and the business layer keeps its state; when the body decodes
to `b` and `BookUsecase.Create` returns no error, `Create` responds 201 with the
book as the business layer created it. -/
theorem create_bad_request_or_created (h : BookHandler P ε σ) (c : Context P ε) (s : σ) :
    (∀ e, c.Bind = .error e →
      (h.Create c s).response = ⟨400, .map [("error", "Invalid input")]⟩ ∧
      (h.Create c s).calls = [.Bind] ∧ (h.Create c s).state = s) ∧
    (∀ b b1 s1, c.Bind = .ok b → h.BookUsecase.Create b s = ((none, b1), s1) →
      (h.Create c s).response = ⟨201, .book b1⟩ ∧
      (h.Create c s).calls = [.Bind, .Create b] ∧ (h.Create c s).state = s1) := by
  refine ⟨?_, ?_⟩
  · intro e hb
    simp [BookHandler.Create, hb, StatusBadRequest]
  · intro b b1 s1 hb hu
    simp [BookHandler.Create, hb, hu, StatusCreated]

/-- C6 on an empty in-memory store: an undecodable body, then a body that
decodes and is stored under the id `1`. -/
theorem create_bad_request_or_created_witness :
    ((memHandler.Create (request "" (.error "bad json")) []).response
        = ⟨400, .map [("error", "Invalid input")]⟩ ∧
      (memHandler.Create (request "" (.error "bad json")) []).calls = [.Bind] ∧
      (memHandler.Create (request "" (.error "bad json")) []).state = []) ∧
    ((memHandler.Create (request "" (.ok ⟨0, "A by B"⟩)) []).response
        = ⟨201, .book ⟨1, "A by B"⟩⟩ ∧
      (memHandler.Create (request "" (.ok ⟨0, "A by B"⟩)) []).calls
        = [.Bind, .Create ⟨0, "A by B"⟩] ∧
      (memHandler.Create (request "" (.ok ⟨0, "A by B"⟩)) []).state = [⟨1, "A by B"⟩]) :=
  ⟨(create_bad_request_or_created memHandler (request "" (.error "bad json")) []).1
      "bad json" rfl,
   (create_bad_request_or_created memHandler (request "" (.ok ⟨0, "A by B"⟩)) []).2
      ⟨0, "A by B"⟩ ⟨1, "A by B"⟩ [⟨1, "A by B"⟩] rfl rfl⟩

/-! ### C7: the book a successful `Update` returns -/

/-- C7, as stated, fails in two ways.  With the path id `-1` (which `Atoi`
parses as `-1`) and a business layer that leaves the book alone, the book in the
200 response has id `18446744073709551615`, not `-1`.  With the path id `0` and
a business layer whose `Update` writes a fresh id through the pointer it
receives, the book in the 200 response has id `1`, not `0`. -/
theorem update_response_id_differs_from_path_id :
    (Atoi ((request "-1" (.ok ⟨7, "T"⟩)).Param "id") = .ok (-1) ∧
      (memHandler.Update (request "-1" (.ok ⟨7, "T"⟩)) []).response
        = ⟨200, .book ⟨18446744073709551615, "T"⟩⟩ ∧
      ((18446744073709551615 : Nat) : Int) ≠ -1) ∧
    (Atoi ((request "0" (.ok ⟨7, "T"⟩)).Param "id") = .ok 0 ∧
      (savingHandler.Update (request "0" (.ok ⟨7, "T"⟩)) []).response
        = ⟨200, .book ⟨1, "T"⟩⟩ ∧
      ((1 : Nat) : Int) ≠ 0) := by
  refine ⟨⟨rfl, rfl, by decide⟩, ⟨rfl, rfl, by decide⟩⟩

/-- C7, amended: when the path id parses as `n`, the body decodes to `b` and
`BookUsecase.Update`, called on the book made of `uint(n)` and the other fields
of `b`, returns no error and leaves the book as `b1`, `Update` responds 200 with
`b1`.  Whatever id the body carried plays no part.  If the business layer left
the id untouched then the returned id is `uint(n)`, which is `n` itself when `n`
is not negative. -/
theorem update_ok_returns_book_as_left (h : BookHandler P ε σ) (c : Context P ε) (s s1 : σ)
    (n : Int) (b b1 : Book P)
    (hid : Atoi (c.Param "id") = .ok n) (hb : c.Bind = .ok b)
    (hu : h.BookUsecase.Update ⟨toUint n, b.payload⟩ s = ((none, b1), s1)) :
    (h.Update c s).response = ⟨200, .book b1⟩ ∧
    (b1.ID = toUint n → 0 ≤ n → (b1.ID : Int) = n) := by
  constructor
  · simp [BookHandler.Update, hid, hb, hu, StatusOK]
  · intro hkeep h0
    rw [hkeep]
    exact toUint_of_nonneg n h0 (Atoi_range _ _ hid).2

/-- C7, amended, at the path id `42` with a body carrying id `7`, over a store
that holds book `42`. -/
theorem update_ok_returns_book_as_left_witness :
    (memHandler.Update (request "42" (.ok ⟨7, "T"⟩)) [⟨42, "old"⟩]).response
      = ⟨200, .book ⟨42, "T"⟩⟩ ∧
    (((⟨42, "T"⟩ : Book String).ID : Nat) : Int) = 42 :=
  have w := update_ok_returns_book_as_left memHandler (request "42" (.ok ⟨7, "T"⟩))
    [⟨42, "old"⟩] [⟨42, "T"⟩] 42 ⟨7, "T"⟩ ⟨42, "T"⟩ rfl rfl rfl
  ⟨w.1, w.2 rfl (by decide)⟩

/-! ### C8: the two 400 responses of `Update` -/

/-- C8: in `Update`, a path id that parses together with a body that does not
decode gives 400 whose body is the bind error itself, the bind being the only
call made (`BookUsecase.Update` is not invoked); a path id that does not parse
gives 400 with `{"error": "Invalid ID"}` and no call at all, so the body is not
even bound, whatever the outcome of binding it would have been. -/
theorem update_bad_request_bodies (h : BookHandler P ε σ) (c : Context P ε) (s : σ) :
    (∀ n e, Atoi (c.Param "id") = .ok n → c.Bind = .error e →
      (h.Update c s).response = ⟨400, .err e⟩ ∧
      (h.Update c s).calls = [.Bind] ∧ (h.Update c s).state = s) ∧
    (∀ ne, Atoi (c.Param "id") = .error ne →
      (h.Update c s).response = ⟨400, .map [("error", "Invalid ID")]⟩ ∧
      (h.Update c s).calls = [] ∧ (h.Update c s).state = s) := by
  refine ⟨?_, ?_⟩
  · intro n e hid hb
    simp [BookHandler.Update, hid, hb, StatusBadRequest]
  · intro ne hid
    simp [BookHandler.Update, hid, StatusBadRequest]

/-- C8 on three requests: a valid id with an undecodable body, an invalid id
with a decodable body, an invalid id with an undecodable body. -/
theorem update_bad_request_bodies_witness :
    ((memHandler.Update (request "5" (.error "bad json")) [⟨5, "A"⟩]).response
        = ⟨400, .err "bad json"⟩ ∧
      (memHandler.Update (request "5" (.error "bad json")) [⟨5, "A"⟩]).calls = [.Bind] ∧
      (memHandler.Update (request "5" (.error "bad json")) [⟨5, "A"⟩]).state = [⟨5, "A"⟩]) ∧
    ((memHandler.Update (request "x5" (.ok ⟨7, "T"⟩)) [⟨5, "A"⟩]).response
        = ⟨400, .map [("error", "Invalid ID")]⟩ ∧
      (memHandler.Update (request "x5" (.ok ⟨7, "T"⟩)) [⟨5, "A"⟩]).calls = [] ∧
      (memHandler.Update (request "x5" (.ok ⟨7, "T"⟩)) [⟨5, "A"⟩]).state = [⟨5, "A"⟩]) ∧
    ((memHandler.Update (request "x5" (.error "bad json")) [⟨5, "A"⟩]).response
        = ⟨400, .map [("error", "Invalid ID")]⟩ ∧
      (memHandler.Update (request "x5" (.error "bad json")) [⟨5, "A"⟩]).calls = [] ∧
      (memHandler.Update (request "x5" (.error "bad json")) [⟨5, "A"⟩]).state = [⟨5, "A"⟩]) :=
  ⟨(update_bad_request_bodies memHandler (request "5" (.error "bad json")) [⟨5, "A"⟩]).1
      5 "bad json" rfl rfl,
   (update_bad_request_bodies memHandler (request "x5" (.ok ⟨7, "T"⟩)) [⟨5, "A"⟩]).2
      .ErrSyntax rfl,
   (update_bad_request_bodies memHandler (request "x5" (.error "bad json")) [⟨5, "A"⟩]).2
      .ErrSyntax rfl⟩

/-! ### C9: create, then fetch -/

/-- C9, as stated, fails once the assigned id reaches `2^63`, on a store that
is stable.  Posting a book that carries the id `9223372036854775808` to an empty
store, and posting a book without id to a store whose largest id is
`9223372036854775807`, both give 201 with a book of id `9223372036854775808`
and leave a store that returns this book when asked for that id; yet `GetByID` with that id in
decimal as the path parameter responds 400 with `{"error": "Invalid ID"}` and
does not call the business layer. -/
theorem created_id_beyond_int_range_is_not_fetched :
    toString (9223372036854775808 : Nat) = "9223372036854775808" ∧
    ((sequenceHandler.Create (request "" (.ok ⟨9223372036854775808, "A by B"⟩)) []).response
        = ⟨201, .book ⟨9223372036854775808, "A by B"⟩⟩ ∧
      (sequenceHandler.Create (request "" (.ok ⟨9223372036854775808, "A by B"⟩)) []).state
        = [⟨9223372036854775808, "A by B"⟩] ∧
      (sequenceUsecase.GetByID 9223372036854775808 [⟨9223372036854775808, "A by B"⟩]).1
        = (some ⟨9223372036854775808, "A by B"⟩, none) ∧
      (sequenceHandler.GetByID (request "9223372036854775808" (.error "no body"))
          [⟨9223372036854775808, "A by B"⟩]).response
        = ⟨400, .map [("error", "Invalid ID")]⟩ ∧
      (sequenceHandler.GetByID (request "9223372036854775808" (.error "no body"))
          [⟨9223372036854775808, "A by B"⟩]).calls = []) ∧
    ((sequenceHandler.Create (request "" (.ok ⟨0, "A by B"⟩))
          [⟨9223372036854775807, "old"⟩]).response
        = ⟨201, .book ⟨9223372036854775808, "A by B"⟩⟩ ∧
      (sequenceHandler.Create (request "" (.ok ⟨0, "A by B"⟩))
          [⟨9223372036854775807, "old"⟩]).state
        = [⟨9223372036854775808, "A by B"⟩, ⟨9223372036854775807, "old"⟩] ∧
      (sequenceUsecase.GetByID 9223372036854775808
          [⟨9223372036854775808, "A by B"⟩, ⟨9223372036854775807, "old"⟩]).1
        = (some ⟨9223372036854775808, "A by B"⟩, none) ∧
      (sequenceHandler.GetByID (request "9223372036854775808" (.error "no body"))
          [⟨9223372036854775808, "A by B"⟩, ⟨9223372036854775807, "old"⟩]).response
        = ⟨400, .map [("error", "Invalid ID")]⟩ ∧
      (sequenceHandler.GetByID (request "9223372036854775808" (.error "no body"))
          [⟨9223372036854775808, "A by B"⟩, ⟨9223372036854775807, "old"⟩]).calls = []) := by
  refine ⟨rfl, ⟨rfl, rfl, rfl, rfl, rfl⟩, ⟨rfl, rfl, rfl, rfl, rfl⟩⟩

/-- C9, amended: let the body of a `POST /books` decode to `b`, let
`BookUsecase.Create` succeed on it, leaving the book as `b1` (its id assigned)
and the store in state `s1`, and let the store be stable, in that it returns
`b1` when asked for the id of `b1` in state `s1`.  If the id of `b1` is below
`2^63`, then `Create` responds 201 with `b1` and leaves the store in `s1`, and
`GetByID`, called there with the id of `b1` in decimal as the path parameter,
responds 200 with the same book `b1`. -/
theorem create_then_getByID_roundtrip (h : BookHandler P ε σ) (c c2 : Context P ε) (s s1 : σ)
    (b b1 : Book P)
    (hb : c.Bind = .ok b)
    (hcreate : h.BookUsecase.Create b s = ((none, b1), s1))
    (hstable : (h.BookUsecase.GetByID b1.ID s1).1 = (some b1, none))
    (hpath : c2.Param "id" = toString b1.ID) (hlt : b1.ID < 2 ^ 63) :
    (h.Create c s).response = ⟨201, .book b1⟩ ∧
    (h.Create c s).state = s1 ∧
    (h.GetByID c2 (h.Create c s).state).response = ⟨200, .book b1⟩ := by
  have hc : h.Create c s = ⟨⟨201, .book b1⟩, [.Bind, .Create b], s1⟩ := by
    simp [BookHandler.Create, hb, hcreate, StatusCreated]
  have hid : Atoi (c2.Param "id") = .ok (b1.ID : Int) := by
    rw [hpath]
    exact Atoi_toString b1.ID hlt
  have hn : toUint (b1.ID : Int) = b1.ID := by
    have hcast := toUint_of_nonneg (b1.ID : Int) (Int.ofNat_nonneg _) (by exact_mod_cast hlt)
    exact_mod_cast hcast
  refine ⟨by rw [hc], by rw [hc], ?_⟩
  rw [hc]
  rcases hg : h.BookUsecase.GetByID b1.ID s1 with ⟨⟨ob, oe⟩, s2⟩
  rw [hg] at hstable
  simp only [Prod.mk.injEq] at hstable
  obtain ⟨rfl, rfl⟩ := hstable
  simp [BookHandler.GetByID, hid, hn, hg, StatusOK]

/-- C9, amended, on the in-memory store, empty at first: the posted book is
stored under the id `1`, and `GET /books/1` returns it. -/
theorem create_then_getByID_roundtrip_witness :
    (memHandler.Create (request "" (.ok ⟨0, "A by B"⟩)) []).response
      = ⟨201, .book ⟨1, "A by B"⟩⟩ ∧
    (memHandler.Create (request "" (.ok ⟨0, "A by B"⟩)) []).state = [⟨1, "A by B"⟩] ∧
    (memHandler.GetByID (request "1" (.error "no body"))
        (memHandler.Create (request "" (.ok ⟨0, "A by B"⟩)) []).state).response
      = ⟨200, .book ⟨1, "A by B"⟩⟩ :=
  create_then_getByID_roundtrip memHandler (request "" (.ok ⟨0, "A by B"⟩))
    (request "1" (.error "no body")) [] [⟨1, "A by B"⟩] ⟨0, "A by B"⟩ ⟨1, "A by B"⟩
    rfl rfl rfl rfl (by decide)

/-! ### C10: negative path ids -/

/-- C10, as stated, fails for `Update`: with the path id `-1`, which `Atoi`
parses as `-1`, and a body that does not decode, `Update` does respond 400 and
its only call is the bind, so the business layer is not invoked. -/
theorem update_negative_id_undecodable_body_is_bad_request :
    Atoi ((request "-1" (.error "bad json")).Param "id") = .ok (-1) ∧
    (memHandler.Update (request "-1" (.error "bad json")) []).response
      = ⟨400, .err "bad json"⟩ ∧
    (memHandler.Update (request "-1" (.error "bad json")) []).calls = [.Bind] := by
  refine ⟨rfl, rfl, rfl⟩

/-- C10, amended: when the path id parses as a negative `n`, `uint(n)` is
`2^64 + n`; `GetByID` and `Delete` do not respond 400 and call the business
layer exactly once, on `uint(n)`; and `Update`, whenever the body decodes, does
not respond 400 either and calls `BookUsecase.Update` exactly once, on a book
whose ID is `uint(n)`. -/
theorem negative_id_reaches_usecase (h : BookHandler P ε σ) (c : Context P ε) (s : σ) (n : Int)
    (hid : Atoi (c.Param "id") = .ok n) (hneg : n < 0) :
    ((toUint n : Nat) : Int) = 2 ^ 64 + n ∧
    ((h.GetByID c s).calls = [.GetByID (toUint n)] ∧ (h.GetByID c s).response.status ≠ 400) ∧
    ((h.Delete c s).calls = [.Delete (toUint n)] ∧ (h.Delete c s).response.status ≠ 400) ∧
    (∀ b, c.Bind = .ok b →
      (h.Update c s).calls = [.Bind, .Update ⟨toUint n, b.payload⟩] ∧
      (h.Update c s).response.status ≠ 400) := by
  refine ⟨toUint_of_neg n hneg (Atoi_range _ _ hid).1, ?_, ?_, ?_⟩
  · simp only [BookHandler.GetByID, hid]
    rcases hg : h.BookUsecase.GetByID (toUint n) s with ⟨⟨_ | b, _ | e⟩, s1⟩ <;>
      simp [StatusOK, StatusNotFound, StatusInternalServerError]
  · simp only [BookHandler.Delete, hid]
    rcases hg : h.BookUsecase.Delete (toUint n) s with ⟨_ | e, s1⟩ <;>
      simp [StatusNoContent, StatusInternalServerError]
  · intro b hb
    simp only [BookHandler.Update, hid, hb]
    rcases hg : h.BookUsecase.Update ⟨toUint n, b.payload⟩ s with ⟨⟨_ | e, b1⟩, s1⟩ <;>
      simp [StatusOK, StatusInternalServerError]

/-- C10, amended, at the path id `-1` with a body carrying id `7`, over a store
holding one book. -/
theorem negative_id_reaches_usecase_witness :
    ((toUint (-1) : Nat) : Int) = 2 ^ 64 + (-1) ∧
    ((memHandler.GetByID (request "-1" (.ok ⟨7, "T"⟩)) [⟨1, "A"⟩]).calls
        = [.GetByID (toUint (-1))] ∧
      (memHandler.GetByID (request "-1" (.ok ⟨7, "T"⟩)) [⟨1, "A"⟩]).response.status ≠ 400) ∧
    ((memHandler.Delete (request "-1" (.ok ⟨7, "T"⟩)) [⟨1, "A"⟩]).calls
        = [.Delete (toUint (-1))] ∧
      (memHandler.Delete (request "-1" (.ok ⟨7, "T"⟩)) [⟨1, "A"⟩]).response.status ≠ 400) ∧
    ((memHandler.Update (request "-1" (.ok ⟨7, "T"⟩)) [⟨1, "A"⟩]).calls
        = [.Bind, .Update ⟨toUint (-1), "T"⟩] ∧
      (memHandler.Update (request "-1" (.ok ⟨7, "T"⟩)) [⟨1, "A"⟩]).response.status ≠ 400) :=
  have w := negative_id_reaches_usecase memHandler (request "-1" (.ok ⟨7, "T"⟩)) [⟨1, "A"⟩]
    (-1) rfl (by decide)
  ⟨w.1, w.2.1, w.2.2.1, w.2.2.2 ⟨7, "T"⟩ rfl⟩

end Delivery
